import Mathlib

/-
  Verification of the Monte Carlo leading-order cross-section estimator
  from the Drell-Yan tutorial notebook (photon-photon initiated
  lepton-pair production).

  The notebook's numerical core is embedded shallowly over the real
  numbers: the three calls to the uniform pseudo-random generator become
  explicit real arguments r1, r2, r3, floating-point arithmetic is
  modelled by real arithmetic, and the external interpolation-grid
  library is modelled by recording the sequence of fill calls the code
  issues to it.
-/

namespace ComoMC

/-- Return value of the phase-space sampler: Mandelstam invariants,
momentum fractions and the Monte Carlo jacobian. -/
structure PSPoint where
  s : ℝ
  t : ℝ
  u : ℝ
  x1 : ℝ
  x2 : ℝ
  jacobian : ℝ

/-- Hadronic phase-space generator, translated from the notebook.
The three draws of `np.random.uniform()` (values in `[0,1)`) are the
explicit arguments `r1 r2 r3`; `pow` with real exponent is `Real.rpow`. -/
noncomputable def hadronic_ps_gen (mmin mmax r1 r2 r3 : ℝ) : PSPoint :=
  let smin := mmin * mmin
  let smax := mmax * mmax
  -- generate partonic x1 and x2
  let tau0 := smin / smax
  let tau := tau0 ^ r1
  let y := tau ^ (1 - r2)
  let x1 := y
  let x2 := tau / y
  let s := tau * smax
  let jacobian := tau * Real.log tau0 * Real.log tau0 * r1
  -- theta integration (in the CMS)
  let cos_theta := 2 * r3 - 1
  let jacobian := jacobian * 2
  -- reconstruct invariants (in the CMS)
  let t := -0.5 * s * (1 - cos_theta)
  let u := -0.5 * s * (1 + cos_theta)
  -- phi integration
  let jacobian := jacobian * (2 * Real.pi)
  ⟨s, t, u, x1, x2, jacobian⟩

/-- Modelled from the spec: the notebook leaves the return expression of
`photon_photon_matrix_element` as a fill-in exercise ("INSERT HERE THE
SQUARED MATRIX ELEMENT"); the spec (section 4.2) and the notebook's own
derivation give `M(s,t,u) = alpha0^2/(2 s) * (t/u + u/t)`.  The constant
`alpha0 = 1/137.03599911` is present in the source. -/
noncomputable def photon_photon_matrix_element (s t u : ℝ) : ℝ :=
  let alpha0 : ℝ := 1 / 137.03599911
  alpha0 ^ 2 / (2 * s) * (t / u + u / t)

/-- Claim C1: for every valid input (0 < mmin < mmax) and draws
r1, r2, r3 in [0,1), `hadronic_ps_gen` returns Mandelstam variables with
t = -0.5*s*(1-cos_theta), u = -0.5*s*(1+cos_theta) (cos_theta = 2*r3-1),
and s + t + u = 0 holds exactly by construction (real-arithmetic model of
the floating-point code). -/
theorem hadronic_ps_gen_mandelstam_closure (mmin mmax r1 r2 r3 : ℝ)
    (hmin : 0 < mmin) (hmax : mmin < mmax)
    (hr1 : 0 ≤ r1) (hr1' : r1 < 1) (hr2 : 0 ≤ r2) (hr2' : r2 < 1)
    (hr3 : 0 ≤ r3) (hr3' : r3 < 1) :
    (hadronic_ps_gen mmin mmax r1 r2 r3).t =
      -0.5 * (hadronic_ps_gen mmin mmax r1 r2 r3).s * (1 - (2 * r3 - 1)) ∧
    (hadronic_ps_gen mmin mmax r1 r2 r3).u =
      -0.5 * (hadronic_ps_gen mmin mmax r1 r2 r3).s * (1 + (2 * r3 - 1)) ∧
    (hadronic_ps_gen mmin mmax r1 r2 r3).s + (hadronic_ps_gen mmin mmax r1 r2 r3).t +
      (hadronic_ps_gen mmin mmax r1 r2 r3).u = 0 := by
  refine ⟨?_, ?_, ?_⟩ <;> simp only [hadronic_ps_gen] <;> ring

/-- Witness for claim C1 at mmin = 1, mmax = 2, r1 = r2 = r3 = 0. -/
theorem hadronic_ps_gen_mandelstam_closure_witness :
    (hadronic_ps_gen 1 2 0 0 0).s + (hadronic_ps_gen 1 2 0 0 0).t +
      (hadronic_ps_gen 1 2 0 0 0).u = 0 :=
  (hadronic_ps_gen_mandelstam_closure 1 2 0 0 0 (by norm_num) (by norm_num)
    (by norm_num) (by norm_num) (by norm_num) (by norm_num) (by norm_num)
    (by norm_num)).2.2

/-- Claim C2: the matrix-element evaluator is the pure closed-form
function alpha0^2/(2 s) * (t/u + u/t) with alpha0 = 1/137.03599911, and
at s = 100, t = -40, u = -60 it returns a strictly positive value equal
to that closed form (real-arithmetic model). -/
theorem photon_photon_matrix_element_closed_form :
    (∀ s t u : ℝ, photon_photon_matrix_element s t u =
      (1 / 137.03599911) ^ 2 / (2 * s) * (t / u + u / t)) ∧
    photon_photon_matrix_element 100 (-40) (-60) =
      (1 / 137.03599911) ^ 2 / (2 * 100) * ((-40 : ℝ) / (-60) + (-60 : ℝ) / (-40)) ∧
    0 < photon_photon_matrix_element 100 (-40) (-60) := by
  refine ⟨fun s t u => rfl, rfl, ?_⟩
  simp only [photon_photon_matrix_element]
  norm_num

/-- Conversion constant from the notebook, in GeV^2 pbarn. -/
noncomputable def hbarc2 : ℝ := 389379372.1

/-- Inverse hyperbolic cosine, modelling the call to `math.acosh`. -/
noncomputable def acosh (x : ℝ) : ℝ := Real.log (x + Real.sqrt (x ^ 2 - 1))

/-- Observables a `fill_grid` trial computes (unconditionally, before
the cut check) from the sampled phase-space point. -/
structure Observables where
  ptl : ℝ
  mll : ℝ
  yll : ℝ
  ylp : ℝ
  ylm : ℝ

/-- Observable computation of one `fill_grid` trial, translated from the
notebook: `ptl = sqrt(t*u/s)`, `mll = sqrt(s)`, `yll = 0.5*log(x1/x2)`,
and the two lepton rapidities built from `acosh(0.5*mll/ptl)`.  The
sampler is invoked with the hard-coded bounds `(10.0, 7000.0)`. -/
noncomputable def trialObs (r1 r2 r3 : ℝ) : Observables :=
  let p := hadronic_ps_gen 10 7000 r1 r2 r3
  let ptl := Real.sqrt (p.t * p.u / p.s)
  let mll := Real.sqrt p.s
  let yll := 0.5 * Real.log (p.x1 / p.x2)
  let ylp := |yll + acosh (0.5 * mll / ptl)|
  let ylm := |yll - acosh (0.5 * mll / ptl)|
  ⟨ptl, mll, yll, ylp, ylm⟩

/-- Modelled from the spec: the cut condition of `fill_grid` is a
fill-in exercise in the notebook ("INSERT HERE THE PHASE SPACE CUTS");
the spec (sections 4.3 and 8) and the notebook text give the CMS cuts
pT > 14 GeV, |y| < 2.4 for both leptons, 60 GeV < M < 120 GeV. -/
def passCuts (o : Observables) : Prop :=
  14 < o.ptl ∧ o.ylp < 2.4 ∧ o.ylm < 2.4 ∧ 60 < o.mll ∧ o.mll < 120

/-- One call to the external interpolation-grid library's `fill`
method, with the notebook's argument order. -/
structure FillCall where
  x1 : ℝ
  x2 : ℝ
  q2 : ℝ
  order : ℕ
  obs : ℝ
  lumi : ℕ
  weight : ℝ

open scoped Classical

/-- One iteration of the Monte Carlo loop of `fill_grid`: `none` models
`continue` (the event is cut away); `some` records the `grid.fill` call,
whose weight uses the swapped argument order `(s, u, t)` exactly as in
the source. -/
noncomputable def fill_grid_trial (calls : ℕ) (r : ℝ × ℝ × ℝ) : Option FillCall :=
  let p := hadronic_ps_gen 10 7000 r.1 r.2.1 r.2.2
  let o := trialObs r.1 r.2.1 r.2.2
  let jacobian := p.jacobian * (hbarc2 / calls)
  if passCuts o then
    some ⟨p.x1, p.x2, 90 * 90, 0, |o.yll|, 0,
      jacobian * photon_photon_matrix_element p.s p.u p.t⟩
  else none

/-- The Monte Carlo loop of `fill_grid`: the side effect on the external
grid is the sequence of fill calls issued over `calls` trials, where
trial `i` consumes the draws `draws i`. -/
noncomputable def fill_grid (calls : ℕ) (draws : ℕ → ℝ × ℝ × ℝ) : List FillCall :=
  (List.range calls).filterMap (fun i => fill_grid_trial calls (draws i))

/-- Model of `np.arange(start, stop, step)` for float arguments: the
half-open interval `[start, stop)` sampled in steps of `step`, with
`ceil((stop - start)/step)` elements (exact rational arithmetic; the
float computation yields the same element count here). -/
def np_arange (start stop step : ℚ) : List ℚ :=
  (List.range (⌈(stop - start) / step⌉).toNat).map (fun i => start + (i : ℚ) * step)

/-- Bin edges built by `generate_grid`: `bins = np.arange(0, 2.4, 0.1)`. -/
def generate_grid_bins : List ℚ := np_arange 0 2.4 0.1

/-- The full generator, translated from the notebook.  The source
performs no configuration validation and contains no raise statement;
the `Except` layer records that: every execution returns `.ok` with the
bin edges and the recorded sequence of grid fills. -/
noncomputable def generate_grid (calls : ℕ) (draws : ℕ → ℝ × ℝ × ℝ) :
    Except String (List ℚ × List FillCall) :=
  Except.ok (generate_grid_bins, fill_grid calls draws)

/-- Counterexample for claim C4: at the valid input mmin = 1, mmax = 2
with draw r1 = 0 (a value `np.random.uniform()` can return, since its
range is `[0,1)`), the jacobian returned by `hadronic_ps_gen` is exactly
0, not strictly positive. -/
theorem hadronic_ps_gen_jacobian_zero_at_r1_zero :
    (hadronic_ps_gen 1 2 0 0 0).jacobian = 0 := by
  simp only [hadronic_ps_gen]
  ring

/-- Claim C4 (amended): for valid inputs 0 < mmin < mmax and r1 in [0,1),
the jacobian is nonnegative, and strictly positive whenever r1 > 0; at
r1 = 0 it vanishes. -/
theorem hadronic_ps_gen_jacobian_nonneg_pos (mmin mmax r1 r2 r3 : ℝ)
    (hmin : 0 < mmin) (hmax : mmin < mmax) (hr1 : 0 ≤ r1) (hr1' : r1 < 1) :
    0 ≤ (hadronic_ps_gen mmin mmax r1 r2 r3).jacobian ∧
    (0 < r1 → 0 < (hadronic_ps_gen mmin mmax r1 r2 r3).jacobian) := by
  have hmax0 : 0 < mmax := hmin.trans hmax
  have h0 : 0 < mmin * mmin / (mmax * mmax) :=
    div_pos (mul_pos hmin hmin) (mul_pos hmax0 hmax0)
  have h1 : mmin * mmin / (mmax * mmax) < 1 :=
    (div_lt_one (mul_pos hmax0 hmax0)).mpr (by nlinarith)
  have hL : Real.log (mmin * mmin / (mmax * mmax)) < 0 := Real.log_neg h0 h1
  have htau : 0 < (mmin * mmin / (mmax * mmax)) ^ r1 := Real.rpow_pos_of_pos h0 r1
  have hLL : 0 < Real.log (mmin * mmin / (mmax * mmax)) *
      Real.log (mmin * mmin / (mmax * mmax)) := mul_pos_of_neg_of_neg hL hL
  have hbase : 0 < (mmin * mmin / (mmax * mmax)) ^ r1 *
      Real.log (mmin * mmin / (mmax * mmax)) *
      Real.log (mmin * mmin / (mmax * mmax)) := by
    rw [mul_assoc]
    exact mul_pos htau hLL
  constructor
  · simp only [hadronic_ps_gen]
    nlinarith [mul_nonneg (mul_nonneg hbase.le hr1) Real.pi_pos.le]
  · intro hpos
    simp only [hadronic_ps_gen]
    nlinarith [mul_pos (mul_pos hbase hpos) Real.pi_pos]

/-- Witness for claim C4 (amended) at mmin = 1, mmax = 2, r1 = 1/2. -/
theorem hadronic_ps_gen_jacobian_nonneg_pos_witness :
    0 < (hadronic_ps_gen 1 2 (1/2) 0 0).jacobian :=
  (hadronic_ps_gen_jacobian_nonneg_pos 1 2 (1/2) 0 0 (by norm_num) (by norm_num)
    (by norm_num) (by norm_num)).2 (by norm_num)

/-- Claim C5: for every valid input (0 < mmin < mmax) and draws
r1, r2 in [0,1), the momentum fractions satisfy 0 < x1 <= 1,
0 < x2 <= 1, and x1*x2 lies in [mmin^2/mmax^2, 1]. -/
theorem hadronic_ps_gen_momentum_fractions (mmin mmax r1 r2 r3 : ℝ)
    (hmin : 0 < mmin) (hmax : mmin < mmax)
    (hr1 : 0 ≤ r1) (hr1' : r1 < 1) (hr2 : 0 ≤ r2) (hr2' : r2 < 1) :
    0 < (hadronic_ps_gen mmin mmax r1 r2 r3).x1 ∧
    (hadronic_ps_gen mmin mmax r1 r2 r3).x1 ≤ 1 ∧
    0 < (hadronic_ps_gen mmin mmax r1 r2 r3).x2 ∧
    (hadronic_ps_gen mmin mmax r1 r2 r3).x2 ≤ 1 ∧
    mmin ^ 2 / mmax ^ 2 ≤
      (hadronic_ps_gen mmin mmax r1 r2 r3).x1 * (hadronic_ps_gen mmin mmax r1 r2 r3).x2 ∧
    (hadronic_ps_gen mmin mmax r1 r2 r3).x1 * (hadronic_ps_gen mmin mmax r1 r2 r3).x2 ≤ 1 := by
  simp only [hadronic_ps_gen]
  have hmax0 : 0 < mmax := hmin.trans hmax
  have h0 : 0 < mmin * mmin / (mmax * mmax) :=
    div_pos (mul_pos hmin hmin) (mul_pos hmax0 hmax0)
  have h1 : mmin * mmin / (mmax * mmax) < 1 :=
    (div_lt_one (mul_pos hmax0 hmax0)).mpr (by nlinarith)
  set t0 : ℝ := mmin * mmin / (mmax * mmax) with ht0
  have htau_pos : 0 < t0 ^ r1 := Real.rpow_pos_of_pos h0 r1
  have htau_le1 : t0 ^ r1 ≤ 1 := Real.rpow_le_one h0.le h1.le hr1
  have hy_pos : 0 < (t0 ^ r1) ^ (1 - r2) := Real.rpow_pos_of_pos htau_pos _
  have hy_le1 : (t0 ^ r1) ^ (1 - r2) ≤ 1 :=
    Real.rpow_le_one htau_pos.le htau_le1 (by linarith)
  have hty : t0 ^ r1 ≤ (t0 ^ r1) ^ (1 - r2) := by
    have h := Real.rpow_le_rpow_of_exponent_ge htau_pos htau_le1
      (show 1 - r2 ≤ 1 by linarith)
    rwa [Real.rpow_one] at h
  have htau_ge : t0 ≤ t0 ^ r1 := by
    have h := Real.rpow_le_rpow_of_exponent_ge h0 h1.le hr1'.le
    rwa [Real.rpow_one] at h
  have hx1x2 : (t0 ^ r1) ^ (1 - r2) * (t0 ^ r1 / (t0 ^ r1) ^ (1 - r2)) = t0 ^ r1 := by
    rw [mul_comm]
    exact div_mul_cancel₀ _ hy_pos.ne'
  refine ⟨hy_pos, hy_le1, div_pos htau_pos hy_pos, (div_le_one hy_pos).mpr hty, ?_, ?_⟩
  · rw [hx1x2]
    calc mmin ^ 2 / mmax ^ 2 = t0 := by rw [ht0]; ring
    _ ≤ t0 ^ r1 := htau_ge
  · rw [hx1x2]
    exact htau_le1

/-- Witness for claim C5 at mmin = 1, mmax = 2, r1 = r2 = 1/2. -/
theorem hadronic_ps_gen_momentum_fractions_witness :
    0 < (hadronic_ps_gen 1 2 (1/2) (1/2) 0).x1 ∧
    (hadronic_ps_gen 1 2 (1/2) (1/2) 0).x1 ≤ 1 ∧
    0 < (hadronic_ps_gen 1 2 (1/2) (1/2) 0).x2 ∧
    (hadronic_ps_gen 1 2 (1/2) (1/2) 0).x2 ≤ 1 ∧
    (1 : ℝ) ^ 2 / 2 ^ 2 ≤
      (hadronic_ps_gen 1 2 (1/2) (1/2) 0).x1 * (hadronic_ps_gen 1 2 (1/2) (1/2) 0).x2 ∧
    (hadronic_ps_gen 1 2 (1/2) (1/2) 0).x1 * (hadronic_ps_gen 1 2 (1/2) (1/2) 0).x2 ≤ 1 :=
  hadronic_ps_gen_momentum_fractions 1 2 (1/2) (1/2) 0 (by norm_num) (by norm_num)
    (by norm_num) (by norm_num) (by norm_num) (by norm_num)

/-- Claim C6: for s > 0 and t, u < 0 the matrix-element evaluator is
symmetric under exchange of its last two arguments, so the accumulator's
call with argument order (s, u, t) produces the same weight as the
documented (s, t, u) order. -/
theorem photon_photon_matrix_element_symm (s t u : ℝ)
    (hs : 0 < s) (ht : t < 0) (hu : u < 0) :
    photon_photon_matrix_element s t u = photon_photon_matrix_element s u t := by
  simp only [photon_photon_matrix_element]
  ring

/-- Witness for claim C6 at s = 1, t = -2, u = -3. -/
theorem photon_photon_matrix_element_symm_witness :
    photon_photon_matrix_element 1 (-2) (-3) = photon_photon_matrix_element 1 (-3) (-2) :=
  photon_photon_matrix_element_symm 1 (-2) (-3) (by norm_num) (by norm_num) (by norm_num)

/-- Claim C10: for the draw r3 = 0 (cos_theta = -1) the sampler returns
u exactly 0, with pT = sqrt(t*u/s) = 0, while t is strictly negative for
every draw r3 in [0,1). -/
theorem hadronic_ps_gen_collinear_boundary (mmin mmax r1 r2 : ℝ)
    (hmin : 0 < mmin) (hmax : mmin < mmax) :
    (hadronic_ps_gen mmin mmax r1 r2 0).u = 0 ∧
    Real.sqrt ((hadronic_ps_gen mmin mmax r1 r2 0).t *
      (hadronic_ps_gen mmin mmax r1 r2 0).u / (hadronic_ps_gen mmin mmax r1 r2 0).s) = 0 ∧
    ∀ r3 : ℝ, 0 ≤ r3 → r3 < 1 → (hadronic_ps_gen mmin mmax r1 r2 r3).t < 0 := by
  have hmax0 : 0 < mmax := hmin.trans hmax
  have h0 : 0 < mmin * mmin / (mmax * mmax) :=
    div_pos (mul_pos hmin hmin) (mul_pos hmax0 hmax0)
  have hu : (hadronic_ps_gen mmin mmax r1 r2 0).u = 0 := by
    simp only [hadronic_ps_gen]
    ring
  refine ⟨hu, ?_, ?_⟩
  · rw [hu, mul_zero, zero_div, Real.sqrt_zero]
  · intro r3 hr3 hr3'
    simp only [hadronic_ps_gen]
    have hs : 0 < (mmin * mmin / (mmax * mmax)) ^ r1 * (mmax * mmax) :=
      mul_pos (Real.rpow_pos_of_pos h0 r1) (mul_pos hmax0 hmax0)
    nlinarith [mul_pos hs (show (0:ℝ) < 1 - r3 by linarith)]

/-- Witness for claim C10 at mmin = 1, mmax = 2, r1 = r2 = 0, with the
strict negativity of t instantiated at r3 = 0. -/
theorem hadronic_ps_gen_collinear_boundary_witness :
    (hadronic_ps_gen 1 2 0 0 0).u = 0 ∧ (hadronic_ps_gen 1 2 0 0 0).t < 0 :=
  ⟨(hadronic_ps_gen_collinear_boundary 1 2 0 0 (by norm_num) (by norm_num)).1,
   (hadronic_ps_gen_collinear_boundary 1 2 0 0 (by norm_num) (by norm_num)).2.2 0
     le_rfl (by norm_num)⟩

/-- Claim C3 (code evaluation at the failing configuration): the bin
edges `np.arange(0, 2.4, 0.1)` built by `generate_grid` are the 24
values 0.0, 0.1, ..., 2.3 — the endpoint 2.4 is excluded by `np.arange`
— so the histogram has 23 bins covering [0, 2.3), not 24 bins with
edges up to 2.4 as the notebook's own text ("from 0 to 2.4 in steps of
0.1") intends. -/
theorem generate_grid_bins_arange_bug :
    generate_grid_bins.length = 24 ∧
    generate_grid_bins = [0, 0.1, 0.2, 0.3, 0.4, 0.5, 0.6, 0.7, 0.8, 0.9, 1, 1.1,
      1.2, 1.3, 1.4, 1.5, 1.6, 1.7, 1.8, 1.9, 2, 2.1, 2.2, 2.3] := by
  have h0 : (⌈((2.4 : ℚ) - 0) / 0.1⌉ : ℤ) = 24 := by norm_num
  have h : (⌈((2.4 : ℚ) - 0) / 0.1⌉).toNat = 24 := by rw [h0]; rfl
  have hr : List.range 24 = [0, 1, 2, 3, 4, 5, 6, 7, 8, 9, 10, 11, 12, 13, 14, 15,
      16, 17, 18, 19, 20, 21, 22, 23] := by decide
  have hlist : generate_grid_bins = [0, 0.1, 0.2, 0.3, 0.4, 0.5, 0.6, 0.7, 0.8, 0.9,
      1, 1.1, 1.2, 1.3, 1.4, 1.5, 1.6, 1.7, 1.8, 1.9, 2, 2.1, 2.2, 2.3] := by
    simp only [generate_grid_bins, np_arange, h, hr, List.map_cons, List.map_nil]
    norm_num
  exact ⟨by rw [hlist]; rfl, hlist⟩

/-- At r3 = 0 the sampled u vanishes, hence so does the transverse
momentum computed by the trial. -/
theorem trialObs_ptl_eq_zero_of_r3_zero (r1 r2 : ℝ) : (trialObs r1 r2 0).ptl = 0 := by
  have hu : (hadronic_ps_gen 10 7000 r1 r2 0).u = 0 := by
    simp only [hadronic_ps_gen]
    ring
  simp only [trialObs]
  rw [hu, mul_zero, zero_div, Real.sqrt_zero]

/-- Counterexample for claim C7: at the draw (r1, r2, r3) = (1/2, 1/2, 0)
the trial's transverse momentum is exactly 0, so the denominator of the
arccosh argument `0.5*mll/ptl` — which the code evaluates before the cut
check — is zero: the pT = 0 region is not excluded before the
arccosh-based rapidities are evaluated. -/
theorem fill_grid_ptl_zero_reached : (trialObs (1/2) (1/2) 0).ptl = 0 :=
  trialObs_ptl_eq_zero_of_r3_zero (1/2) (1/2)

/-- Claim C7 (amended): a trial whose transverse momentum is 0 fails the
pT > 14 cut and is cut away, so it issues no fill call and no weight is
accumulated, even though its arccosh-based rapidities were computed with
a zero denominator. -/
theorem fill_grid_ptl_zero_is_cut (calls : ℕ) (r : ℝ × ℝ × ℝ)
    (h : (trialObs r.1 r.2.1 r.2.2).ptl = 0) :
    fill_grid_trial calls r = none := by
  have hneg : ¬ passCuts (trialObs r.1 r.2.1 r.2.2) := by
    intro hc
    simp only [passCuts] at hc
    rw [h] at hc
    norm_num at hc
  simp only [fill_grid_trial, if_neg hneg]

/-- Witness for claim C7 (amended) at the draw (1/2, 1/2, 0). -/
theorem fill_grid_ptl_zero_is_cut_witness :
    fill_grid_trial 1 (1/2, 1/2, 0) = none :=
  fill_grid_ptl_zero_is_cut 1 (1/2, 1/2, 0) (trialObs_ptl_eq_zero_of_r3_zero (1/2) (1/2))

/-- Counterexample for claim C8: with the malformed trial count N = 0
(N <= 0), `generate_grid` does not raise any error: it returns normally
with the bin edges and an empty fill sequence. -/
theorem generate_grid_no_error_at_zero_calls :
    generate_grid 0 (fun _ => (0, 0, 0)) =
      Except.ok (generate_grid_bins, ([] : List FillCall)) := by
  simp [generate_grid, fill_grid]

/-- Claim C8 (amended): the generator performs no configuration
validation — every execution returns `.ok` — and with N = 0 no trial is
executed, so the histogram receives no contribution, but no
InvalidConfiguration error is raised. -/
theorem generate_grid_never_raises (calls : ℕ) (draws : ℕ → ℝ × ℝ × ℝ) :
    (∃ v, generate_grid calls draws = Except.ok v) ∧ fill_grid 0 draws = [] :=
  ⟨⟨_, rfl⟩, by simp [fill_grid]⟩

/-- Two filter-maps over one list agree when the functions agree on its
elements. -/
theorem filterMap_congr_on_list {α β : Type _} (f g : α → Option β) :
    ∀ l : List α, (∀ a ∈ l, f a = g a) → l.filterMap f = l.filterMap g := by
  intro l
  induction l with
  | nil => intro _; rfl
  | cons a l ih =>
    intro h
    simp only [List.filterMap_cons, h a (List.mem_cons_self a l),
      ih (fun x hx => h x (List.mem_cons_of_mem a hx))]

/-- Claim C9: the pipeline is a deterministic function of the
configuration and the pseudo-random draw stream — two runs whose
seeded streams agree on the `calls` consumed trials produce identical
results (bit-identical histograms in the real-arithmetic model). -/
theorem generate_grid_deterministic (calls : ℕ) (d1 d2 : ℕ → ℝ × ℝ × ℝ)
    (h : ∀ i, i < calls → d1 i = d2 i) :
    generate_grid calls d1 = generate_grid calls d2 := by
  have hf : fill_grid calls d1 = fill_grid calls d2 := by
    simp only [fill_grid]
    exact filterMap_congr_on_list _ _ _
      (fun i hi => congrArg (fill_grid_trial calls) (h i (List.mem_range.mp hi)))
  simp only [generate_grid, hf]

/-- Witness for claim C9: two syntactically different streams that agree
on the first two trials produce the same result for calls = 2. -/
theorem generate_grid_deterministic_witness :
    generate_grid 2 (fun _ => ((0:ℝ), (0:ℝ), (0:ℝ))) =
      generate_grid 2 (fun i => if i < 2 then ((0:ℝ), (0:ℝ), (0:ℝ)) else (1, 0, 0)) :=
  generate_grid_deterministic 2 _ _ (fun i hi => by simp [hi])

end ComoMC
